import Mathlib

/-!
Verification of the EndoReels API skeleton (src/main.py).

The repository is a single-file HTTP service: three GET routes returning
fixed JSON objects, a permissive cross-origin configuration, environment
loading at startup, and a direct-execution guard that starts the listener.

The route table, the handler bodies, the cross-origin configuration and the
module-level effects are embedded from src/main.py.  The HTTP framework
itself (FastAPI/Starlette route dispatch and the CORSMiddleware response
layer) is third-party code whose source is not part of this repository;
those two layers are modelled from the spec, as marked on their doc
comments.
-/

namespace EndoReels

/-- A JSON object whose fields are strings: every body returned by a handler
in src/main.py is a flat dict from string keys to string values. -/
abbrev JsonObj := List (String × String)

/-- An HTTP request: method, path, and request headers. -/
structure Request where
  method : String
  path : String
  reqHeaders : List (String × String)
deriving DecidableEq, Repr

/-- An HTTP response: status code, response headers, and an optional JSON body. -/
structure Response where
  status : Nat
  respHeaders : List (String × String)
  body : Option JsonObj
deriving DecidableEq, Repr

/-- Handler `root` (src/main.py lines 21-23): returns the object with field
"message" set to "EndoReels API is running!". -/
def root : JsonObj := [("message", "EndoReels API is running!")]

/-- Handler `health_check` (src/main.py lines 25-27): returns the object with
field "status" set to "healthy". -/
def health_check : JsonObj := [("status", "healthy")]

/-- Handler `test_endpoint` (src/main.py lines 30-32): returns the object with
field "message" set to "Test endpoint working" and field "status" set to
"success". -/
def test_endpoint : JsonObj := [("message", "Test endpoint working"), ("status", "success")]

/-- A registered route: HTTP method, path, and the (constant) handler body. -/
structure Route where
  method : String
  path : String
  handler : JsonObj
deriving DecidableEq, Repr

/-- The route table of src/main.py: exactly three GET routes, registered by the
decorators on lines 21, 25 and 30. -/
def routes : List Route :=
  [⟨"GET", "/", root⟩, ⟨"GET", "/health", health_check⟩, ⟨"GET", "/api/v1/test", test_endpoint⟩]

/-- Whether some registered route uses the given path. -/
def pathRegistered (p : String) : Bool :=
  routes.any fun r => p = r.path

/-- The first registered route matching the request's path and method. -/
def matchRoute (req : Request) : List Route → Option Route
  | [] => none
  | r :: rest =>
    if req.path = r.path ∧ req.method = r.method then some r else matchRoute req rest

/-- Modelled from the spec: route dispatch by the underlying HTTP framework
(FastAPI/Starlette), whose source is not part of this repository.  A request
matching a registered route's method and path is answered by that route's
handler with the framework's default success status 200; otherwise, per the
spec, "unknown paths → framework-default 404, unsupported methods →
framework-default 405".  The framework-default error bodies are not
specified and are modelled as absent. -/
def dispatch (req : Request) : Response :=
  match matchRoute req routes with
  | some r => ⟨200, [], some r.handler⟩
  | none => if pathRegistered req.path then ⟨405, [], none⟩ else ⟨404, [], none⟩

/-- The cross-origin configuration: allowed origins, whether credentialed
requests are allowed, allowed methods, allowed request headers. -/
structure CorsConfig where
  allow_origins : List String
  allow_credentials : Bool
  allow_methods : List String
  allow_headers : List String
deriving DecidableEq, Repr

/-- The cross-origin configuration passed to the middleware in src/main.py
lines 13-19: wildcard origins, credentials allowed, wildcard methods,
wildcard headers. -/
def corsConfig : CorsConfig := ⟨["*"], true, ["*"], ["*"]⟩

/-- Whether the configured policy permits a given origin: it does when the
wildcard is configured or the origin is listed. -/
def permitsOrigin (cfg : CorsConfig) (o : String) : Bool :=
  cfg.allow_origins.contains "*" || cfg.allow_origins.contains o

/-- Whether the configured policy permits a given method. -/
def permitsMethod (cfg : CorsConfig) (m : String) : Bool :=
  cfg.allow_methods.contains "*" || cfg.allow_methods.contains m

/-- Whether the configured policy permits a given request header. -/
def permitsHeader (cfg : CorsConfig) (h : String) : Bool :=
  cfg.allow_headers.contains "*" || cfg.allow_headers.contains h

/-- Modelled from the spec: the cross-origin policy layer (the third-party
CORSMiddleware, whose source is not part of this repository).  Per the spec,
"every response passes through a cross-origin policy layer" and
"Cross-origin headers are emitted on every response per the policy above";
the policy "permits any origin, any method, any header, and credentialed
requests".  The emitted headers reflect the configuration: the wildcard
allowed-origin header when the wildcard is configured, and the
credentials-allowed header when credentials are allowed. -/
def corsHeaders (cfg : CorsConfig) : List (String × String) :=
  (if cfg.allow_origins.contains "*" then [("access-control-allow-origin", "*")] else [])
    ++ (if cfg.allow_credentials then [("access-control-allow-credentials", "true")] else [])

/-- Modelled from the spec: the policy layer adds the cross-origin headers to
every response it passes through. -/
def applyCors (cfg : CorsConfig) (resp : Response) : Response :=
  ⟨resp.status, corsHeaders cfg ++ resp.respHeaders, resp.body⟩

/-- The process environment: the variables visible to the process, as loaded
at startup. -/
abbrev Env := List (String × String)

/-- The server state observable by handlers: src/main.py has no module-level
mutable data beyond the environment loaded at startup by load_dotenv. -/
structure ServerState where
  env : Env
deriving DecidableEq, Repr

/-- The full request-to-response function of the application: the handlers of
src/main.py composed with the framework dispatch and the cross-origin layer.
As in src/main.py, no handler reads the server state or any environment
variable, and none mutates anything. -/
def endoreelsApp (_s : ServerState) (req : Request) : Response :=
  applyCors corsConfig (dispatch req)

/-- Processing one request: the response is produced and the server state is
whatever the handler left behind; handlers in src/main.py mutate nothing. -/
def step (s : ServerState) (req : Request) : ServerState × Response :=
  (s, endoreelsApp s req)

/-- Processing a sequence of requests in order, threading the server state. -/
def runSeq (s : ServerState) : List Request → ServerState × List Response
  | [] => (s, [])
  | req :: rest =>
    let out := step s req
    let tail := runSeq out.1 rest
    (tail.1, out.2 :: tail.2)

/-- A module-level effect of src/main.py. -/
inductive Effect where
  | loadEnv : Effect
  | constructApp : Effect
  | serve : String → Nat → Effect
deriving DecidableEq, Repr

/-- The module top level of src/main.py: load_dotenv() on line 7, construction
of the app object (with its middleware and routes) on lines 10-32, and, only
under the direct-execution guard on line 34, uvicorn.run(app, host="0.0.0.0",
port=8000) on line 36. -/
def moduleEffects (isMain : Bool) : List Effect :=
  [Effect.loadEnv, Effect.constructApp] ++ (if isMain then [Effect.serve "0.0.0.0" 8000] else [])

/-- Claim C1: for every request GET / , under any request headers and any
server state, the root handler's response has status 200 and exactly the body
with field "message" set to "EndoReels API is running!". -/
theorem c1_root_ok (s : ServerState) (hs : List (String × String)) :
    (endoreelsApp s ⟨"GET", "/", hs⟩).status = 200 ∧
      (endoreelsApp s ⟨"GET", "/", hs⟩).body = some [("message", "EndoReels API is running!")] :=
  ⟨rfl, rfl⟩

/-- Claim C2: for every request GET /health , under any request headers and
any server state, the health handler's response has status 200 and exactly the
body with field "status" set to "healthy"; the handler is a total function,
so it never fails while the process is up. -/
theorem c2_health_ok (s : ServerState) (hs : List (String × String)) :
    (endoreelsApp s ⟨"GET", "/health", hs⟩).status = 200 ∧
      (endoreelsApp s ⟨"GET", "/health", hs⟩).body = some [("status", "healthy")] :=
  ⟨rfl, rfl⟩

/-- Claim C3: for every request GET /api/v1/test , under any request headers
and any server state, the test handler's response has status 200 and exactly
the body with field "message" set to "Test endpoint working" and field
"status" set to "success". -/
theorem c3_test_ok (s : ServerState) (hs : List (String × String)) :
    (endoreelsApp s ⟨"GET", "/api/v1/test", hs⟩).status = 200 ∧
      (endoreelsApp s ⟨"GET", "/api/v1/test", hs⟩).body =
        some [("message", "Test endpoint working"), ("status", "success")] :=
  ⟨rfl, rfl⟩

/-- Claim C4: every response emitted by the server, for every request to any
route, carries the cross-origin headers, and the configured policy permits
any origin, any method, any header, and credentialed requests. -/
theorem c4_cors_on_every_response (s : ServerState) (req : Request) :
    ("access-control-allow-origin", "*") ∈ (endoreelsApp s req).respHeaders ∧
      ("access-control-allow-credentials", "true") ∈ (endoreelsApp s req).respHeaders ∧
      (∀ o : String, permitsOrigin corsConfig o = true) ∧
      (∀ m : String, permitsMethod corsConfig m = true) ∧
      (∀ h : String, permitsHeader corsConfig h = true) ∧
      corsConfig.allow_credentials = true := by
  refine ⟨?_, ?_, ?_, ?_, ?_, rfl⟩
  · simp [endoreelsApp, applyCors, corsHeaders, corsConfig]
  · simp [endoreelsApp, applyCors, corsHeaders, corsConfig]
  · intro o; simp [permitsOrigin, corsConfig]
  · intro m; simp [permitsMethod, corsConfig]
  · intro h; simp [permitsHeader, corsConfig]

/-- Claim C5: a request whose path is not registered gets the
framework-default not-found status 404, and a request to a registered path
with a method other than GET gets the framework-default method-not-allowed
status 405. -/
theorem c5_framework_defaults (s : ServerState) (req : Request) :
    (pathRegistered req.path = false → (endoreelsApp s req).status = 404) ∧
      (pathRegistered req.path = true → req.method ≠ "GET" →
        (endoreelsApp s req).status = 405) := by
  obtain ⟨m, p, hs⟩ := req
  by_cases h1 : p = "/" <;> by_cases h2 : p = "/health" <;>
    by_cases h3 : p = "/api/v1/test" <;> by_cases h4 : m = "GET" <;>
    simp_all [endoreelsApp, applyCors, dispatch, matchRoute, pathRegistered, routes]

/-- Witness for C5 at concrete inputs: GET on the unregistered path /nope
yields 404, and POST on the registered path /health yields 405. -/
theorem c5_framework_defaults_witness :
    (endoreelsApp ⟨[]⟩ ⟨"GET", "/nope", []⟩).status = 404 ∧
      (endoreelsApp ⟨[]⟩ ⟨"POST", "/health", []⟩).status = 405 :=
  ⟨(c5_framework_defaults ⟨[]⟩ ⟨"GET", "/nope", []⟩).1 (by decide),
    (c5_framework_defaults ⟨[]⟩ ⟨"POST", "/health", []⟩).2 (by decide) (by decide)⟩

/-- Claim C6: processing any sequence of requests leaves the server state
unchanged, and every response is the fixed function of its own request alone,
so repeated calls to the same route return identical responses. -/
theorem c6_stateless_idempotent (s : ServerState) (reqs : List Request) :
    (runSeq s reqs).1 = s ∧ (runSeq s reqs).2 = reqs.map (endoreelsApp s) := by
  induction reqs with
  | nil => exact ⟨rfl, rfl⟩
  | cons r rest ih => exact ⟨ih.1, by simp [runSeq, step, ih.2]⟩

/-- Claim C7: when the module runs as the main program, the listener effect is
present with host "0.0.0.0" and port 8000, and no other listener effect
occurs. -/
theorem c7_serve_all_interfaces (h : String) (p : Nat) :
    Effect.serve "0.0.0.0" 8000 ∈ moduleEffects true ∧
      (Effect.serve h p ∈ moduleEffects true → h = "0.0.0.0" ∧ p = 8000) := by
  constructor
  · simp [moduleEffects]
  · intro hmem
    simp [moduleEffects] at hmem
    exact hmem

/-- Witness for C7 at concrete input: the listener effect for host "0.0.0.0"
and port 8000 is among the direct-execution effects, and it pins the host and
port. -/
theorem c7_serve_all_interfaces_witness :
    Effect.serve "0.0.0.0" 8000 ∈ moduleEffects true ∧
      ("0.0.0.0" = "0.0.0.0" ∧ 8000 = 8000) :=
  ⟨(c7_serve_all_interfaces "0.0.0.0" 8000).1,
    (c7_serve_all_interfaces "0.0.0.0" 8000).2
      (c7_serve_all_interfaces "0.0.0.0" 8000).1⟩

/-- Claim C8: the environment is loaded at startup in both execution modes,
and no route handler's response depends on the environment: two runs with
different environments produce identical responses for the same request. -/
theorem c8_env_noninterference (e1 e2 : Env) (req : Request) :
    Effect.loadEnv ∈ moduleEffects true ∧ Effect.loadEnv ∈ moduleEffects false ∧
      endoreelsApp ⟨e1⟩ req = endoreelsApp ⟨e2⟩ req :=
  ⟨by simp [moduleEffects], by simp [moduleEffects], rfl⟩

/-- Claim C10: importing the module never starts the listener: no serve effect
occurs without the direct-execution guard, and the import-time effects are
exactly loading the environment and constructing the app object. -/
theorem c10_import_no_listener :
    (∀ (h : String) (p : Nat), Effect.serve h p ∉ moduleEffects false) ∧
      moduleEffects false = [Effect.loadEnv, Effect.constructApp] := by
  constructor
  · intro h p hmem
    simp [moduleEffects] at hmem
  · rfl

/-- Witness for C10 at concrete input: the serve effect for host "0.0.0.0"
and port 8000 is absent from the import-time effects. -/
theorem c10_import_no_listener_witness :
    Effect.serve "0.0.0.0" 8000 ∉ moduleEffects false :=
  c10_import_no_listener.1 "0.0.0.0" 8000

end EndoReels
